import Mathlib

/-!
# LinearBot core: shallow embedding and verification

A shallow embedding of the session-driven ticket-creation core of the
LinearBot repository (TypeScript), together with theorems checking the
natural-language specification against it.

Conventions of the embedding:
* JavaScript objects used as open field bags (`Session.ticketData`) are
  association lists `List (String × JsVal)`; object spread `{...old, ...new}`
  is a right-biased merge on keys.
* `Date` timestamps are integer milliseconds since the epoch
  (`Date.getTime()`); the expiry comparison
  `(now - last) / 60000 > timeoutMinutes` is written without division as
  `now - last > timeoutMinutes * 60000`, which is the same predicate over
  exact arithmetic.
* The SQLite `created_at` column of `ticket_requests` only ever enters the
  logic through the duplicate window comparison
  `created_at >= date('now', '-30 days')`, which compares at day
  granularity; it is modelled as whole days since the epoch.
* `async` methods are pure state-passing functions on an explicit `DbState`;
  a thrown JS exception is an explicit error branch (`Bool` success flag or
  an error `Reply`).
-/

set_option linter.unusedVariables false

namespace LinearBot

/-- A JavaScript value stored in a `ticketData` field bag (src/types.ts:
`Partial<TicketRequest> & { awaitingTemplate?: boolean; ...; [key: string]: any }`). -/
inductive JsVal where
  | str (s : String)
  | boolean (b : Bool)
  | num (n : Int)
  deriving DecidableEq, Repr

/-- A JS object as an association list of fields (first binding wins on lookup). -/
abbrev JsObj := List (String × JsVal)

/-- Field lookup on a JS object. -/
def objGet (o : JsObj) (k : String) : Option JsVal :=
  (o.find? (fun p => p.1 == k)).map (fun p => p.2)

/-- Whether the object has the field `k`. -/
def objHas (o : JsObj) (k : String) : Bool :=
  o.any (fun p => p.1 == k)

/-- Lookup of a string-valued field. -/
def objGetStr (o : JsObj) (k : String) : Option String :=
  match objGet o k with
  | some (JsVal.str s) => some s
  | _ => none

/-- JS object spread `{...old, ...new}`: fields of `new` overwrite fields of
`old`; fields of `old` not present in `new` are kept. -/
def objMerge (old new : JsObj) : JsObj :=
  old.filter (fun p => !(objHas new p.1)) ++ new

/-- JS truthiness of a field: present and not `false` (the code only ever
tests `awaitingTemplate`, which is set to `true` / `false`). -/
def objTruthy (o : JsObj) (k : String) : Bool :=
  match objGet o k with
  | some (JsVal.boolean b) => b
  | some _ => true
  | none => false

/-- Session state tag: the union `SessionState | LinearSessionState` of
src/types.ts, represented as one closed enumeration. -/
inductive SessionState where
  | IDLE
  | AWAITING_PASSWORD
  | AWAITING_CATEGORY
  | AWAITING_TITLE
  | AWAITING_DESCRIPTION
  | AWAITING_LABEL
  | AWAITING_PRIORITY
  | AWAITING_CONFIRMATION
  | VIEWING_ISSUES
  | VIEWING_ISSUE_DETAIL
  | SELECTING_STATUS
  | SELECTING_ASSIGNEE
  | ADDING_COMMENT
  | SEARCHING_ISSUES
  | VIEWING_PROJECTS
  | UPDATING_STATUS
  | ASSIGNING_ISSUE
  | VIEWING_TEAMS
  deriving DecidableEq, Repr

/-- `Session` of src/types.ts. `lastActivity` and `createdAt` are
millisecond timestamps. -/
structure Session where
  userId : String
  state : SessionState
  ticketData : JsObj
  lastActivity : Int
  createdAt : Int
  deriving DecidableEq, Repr

/-- A row of the `users` table (the columns the core touches). -/
structure UserRow where
  telegram_user_id : String
  telegram_username : Option String
  full_name : String
  department : String
  is_authenticated : Bool
  tickets_created_today : Nat
  total_tickets_created : Nat
  deriving DecidableEq, Repr

/-- A row of the `ticket_requests` table. `label` holds the database-level
label, constrained by the schema CHECK
`label IN ('Bug', 'Improvement', 'Design', 'Feature', 'Other')`.
`created_at` is in whole days since the epoch (see module comment). -/
structure TicketRow where
  id : String
  telegram_user_id : String
  telegram_username : Option String
  department : String
  title : String
  description : String
  label : String
  priority : String
  status : String
  linear_ticket_id : Option String
  linear_ticket_url : Option String
  created_at : Int
  submitted_at : Option Int
  deriving DecidableEq, Repr

/-- `TicketRequest` of src/types.ts: the application-level view of a ticket
row, as produced by `Database.mapRowToTicket`. -/
structure TicketRequest where
  id : String
  telegram_user_id : String
  telegram_username : Option String
  department : String
  title : String
  description : String
  label : String
  priority : String
  status : String
  linear_ticket_id : Option String
  linear_ticket_url : Option String
  created_at : Int
  submitted_at : Option Int
  deriving DecidableEq, Repr

/-- The argument of `Database.createTicket`
(`Omit<TicketRequest, 'id' | 'created_at'>`). -/
structure TicketInput where
  telegram_user_id : String
  telegram_username : Option String
  department : String
  title : String
  description : String
  label : String
  priority : String
  status : String
  linear_ticket_id : Option String := none
  linear_ticket_url : Option String := none
  submitted_at : Option Int := none
  deriving DecidableEq, Repr

/-- The persistent SQLite state: the tables the core reads and writes. -/
structure DbState where
  users : List UserRow
  tickets : List TicketRow
  sessions : List Session
  auditLog : List (String × String)
  deriving DecidableEq, Repr

namespace Database

/-- `Database.createTicket` label mapping (db/database.ts):
`const dbLabel = ticket.label === 'Request' ? 'Other' : ticket.label`. -/
def toDbLabel (label : String) : String :=
  if label == "Request" then "Other" else label

/-- `Database.mapRowToTicket` label mapping (db/database.ts):
`const appLabel = row.label === 'Other' ? 'Request' : row.label`. -/
def toAppLabel (label : String) : String :=
  if label == "Other" then "Request" else label

/-- The schema CHECK constraint on `ticket_requests.label`. -/
def labelCheckOk (label : String) : Bool :=
  label == "Bug" || label == "Improvement" || label == "Design" ||
    label == "Feature" || label == "Other"

/-- The values of the application-level `TicketLabel` enum (src/types.ts). -/
def appLabels : List String := ["Bug", "Improvement", "Request"]

/-- `Database.mapRowToTicket`: read a row back into the application view,
mapping the stored label `'Other'` back to `'Request'`. -/
def mapRowToTicket (row : TicketRow) : TicketRequest :=
  { id := row.id
    telegram_user_id := row.telegram_user_id
    telegram_username := row.telegram_username
    department := row.department
    title := row.title
    description := row.description
    label := toAppLabel row.label
    priority := row.priority
    status := row.status
    linear_ticket_id := row.linear_ticket_id
    linear_ticket_url := row.linear_ticket_url
    created_at := row.created_at
    submitted_at := row.submitted_at }

/-- `Database.getTicketById`: `SELECT * FROM ticket_requests WHERE id = ?`
followed by `mapRowToTicket`. -/
def getTicketById (st : DbState) (id : String) : Option TicketRequest :=
  (st.tickets.find? (fun r => r.id == id)).map mapRowToTicket

/-- `Database.createTicket`: insert a row (label mapped through `toDbLabel`,
`created_at` defaulted to the current time) and read it back by id.
`freshId` stands for the generated id, `nowDay` for `CURRENT_TIMESTAMP`. -/
def createTicket (st : DbState) (t : TicketInput) (freshId : String)
    (nowDay : Int) : DbState × Option TicketRequest :=
  let row : TicketRow :=
    { id := freshId
      telegram_user_id := t.telegram_user_id
      telegram_username := t.telegram_username
      department := t.department
      title := t.title
      description := t.description
      label := toDbLabel t.label
      priority := t.priority
      status := t.status
      linear_ticket_id := t.linear_ticket_id
      linear_ticket_url := t.linear_ticket_url
      created_at := nowDay
      submitted_at := t.submitted_at }
  let st' : DbState := { st with tickets := st.tickets ++ [row] }
  (st', getTicketById st' freshId)

/-- `Database.updateTicketStatus`: set `status`, and only when both a Linear
id and url are supplied also set them and stamp `submitted_at`. -/
def updateTicketStatus (st : DbState) (id : String) (status : String)
    (linearTicketId linearTicketUrl : Option String) (nowDay : Int) : DbState :=
  { st with
    tickets := st.tickets.map (fun r =>
      if r.id == id then
        match linearTicketId, linearTicketUrl with
        | some lid, some lurl =>
          { r with status := status, linear_ticket_id := some lid,
                   linear_ticket_url := some lurl, submitted_at := some nowDay }
        | _, _ => { r with status := status }
      else r) }

/-- `Database.findDuplicateTicket`:
`SELECT COUNT(*) FROM ticket_requests WHERE title = ? AND created_at >= date('now', '-dayLimit days')`,
returning `count > 0`. Note: no condition on `status`. -/
def findDuplicateTicket (st : DbState) (title : String) (nowDay : Int)
    (dayLimit : Int := 30) : Bool :=
  st.tickets.any (fun r => r.title == title && nowDay - dayLimit ≤ r.created_at)

/-- `Database.getUserTicketsToday`: the user's `tickets_created_today`
counter, `0` when the row is missing. -/
def getUserTicketsToday (st : DbState) (uid : String) : Nat :=
  match st.users.find? (fun u => u.telegram_user_id == uid) with
  | some u => u.tickets_created_today
  | none => 0

/-- `Database.incrementUserTicketCount`: bump both per-day and total
counters of the user's row. -/
def incrementUserTicketCount (st : DbState) (uid : String) : DbState :=
  { st with
    users := st.users.map (fun u =>
      if u.telegram_user_id == uid then
        { u with tickets_created_today := u.tickets_created_today + 1,
                 total_tickets_created := u.total_tickets_created + 1 }
      else u) }

/-- `Database.getUserById`. -/
def getUserById (st : DbState) (uid : String) : Option UserRow :=
  st.users.find? (fun u => u.telegram_user_id == uid)

/-- `Database.saveSession`: `INSERT OR REPLACE INTO sessions` keyed by the
`user_id` primary key — any existing row for the user is replaced whole. -/
def saveSession (st : DbState) (s : Session) : DbState :=
  { st with
    sessions := st.sessions.filter (fun r => !(r.userId == s.userId)) ++ [s] }

/-- `Database.getSession`: `SELECT * FROM sessions WHERE user_id = ?`. -/
def getSession (st : DbState) (uid : String) : Option Session :=
  st.sessions.find? (fun r => r.userId == uid)

/-- `Database.deleteSession`: `DELETE FROM sessions WHERE user_id = ?`. -/
def deleteSession (st : DbState) (uid : String) : DbState :=
  { st with sessions := st.sessions.filter (fun r => !(r.userId == uid)) }

/-- `Database.addAuditLog`. -/
def addAuditLog (st : DbState) (uid action : String) : DbState :=
  { st with auditLog := st.auditLog ++ [(uid, action)] }

end Database

/-- The update object passed to `SessionManager.updateSession`
(`Partial<Session>`): the code only ever passes `state`, `ticketData` and
`lastActivity`; a passed `lastActivity` is irrelevant because
`updateSession` always overwrites it with `new Date()` last. -/
structure SessionUpdates where
  state : Option SessionState := none
  ticketData : Option JsObj := none
  deriving DecidableEq, Repr

namespace SM

/-- `SessionManager.createSession`: build a fresh `IDLE` session with empty
`ticketData` and current timestamps, save it (replacing any prior row) and
log the lifecycle audit event. -/
def createSession (st : DbState) (uid : String) (now : Int) :
    DbState × Session :=
  let s : Session :=
    { userId := uid, state := SessionState.IDLE, ticketData := [],
      lastActivity := now, createdAt := now }
  let st1 := Database.saveSession st s
  let st2 := Database.addAuditLog st1 uid "SESSION_CREATED"
  (st2, s)

/-- `SessionManager.deleteSession`. -/
def deleteSession (st : DbState) (uid : String) : DbState :=
  Database.addAuditLog (Database.deleteSession st uid) uid "SESSION_DELETED"

/-- `SessionManager.getSession`: fetch, then lazily expire — when
`(now - lastActivity) / 60000 > timeoutMinutes` the record is deleted and
`null` is returned. The division-free comparison
`timeoutMinutes * 60000 < now - lastActivity` is the same predicate. -/
def getSession (timeout now : Int) (st : DbState) (uid : String) :
    DbState × Option Session :=
  match Database.getSession st uid with
  | none => (st, none)
  | some s =>
    if timeout * 60000 < now - s.lastActivity then
      (deleteSession st uid, none)
    else
      (st, some s)

/-- `SessionManager.updateSession`: re-fetch through the expiry check,
throw `'Session not found'` when absent (the `Bool` is the no-throw flag),
otherwise save `{...session, ...updates, lastActivity: new Date()}`. -/
def updateSession (timeout now : Int) (st : DbState) (uid : String)
    (upd : SessionUpdates) : DbState × Bool :=
  match getSession timeout now st uid with
  | (st1, none) => (st1, false)
  | (st1, some s) =>
    let s' : Session :=
      { s with
        state := upd.state.getD s.state
        ticketData := upd.ticketData.getD s.ticketData
        lastActivity := now }
    (Database.saveSession st1 s', true)

/-- `SessionManager.updateSessionState`. -/
def updateSessionState (timeout now : Int) (st : DbState) (uid : String)
    (state : SessionState) : DbState × Bool :=
  updateSession timeout now st uid { state := some state }

/-- `SessionManager.updateTicketData`: fetch (throwing when the session is
gone), then update with the shallow merge
`{ ticketData: { ...session.ticketData, ...ticketData } }`. -/
def updateTicketData (timeout now : Int) (st : DbState) (uid : String)
    (patch : JsObj) : DbState × Bool :=
  match getSession timeout now st uid with
  | (st1, none) => (st1, false)
  | (st1, some s) =>
    updateSession timeout now st1 uid
      { ticketData := some (objMerge s.ticketData patch) }

end SM

/-! ## Input validator (src/utils/validation.ts) -/

/-- The JS regex whitespace class `\s` (the code points `\s` matches). -/
def jsWhitespace (c : Char) : Bool :=
  c == ' ' || c == '\t' || c == '\n' || c == '\r' ||
    c.toNat == 0x0B || c.toNat == 0x0C || c.toNat == 0xA0 ||
    c.toNat == 0x1680 || (0x2000 ≤ c.toNat && c.toNat ≤ 0x200A) ||
    c.toNat == 0x2028 || c.toNat == 0x2029 || c.toNat == 0x202F ||
    c.toNat == 0x205F || c.toNat == 0x3000 || c.toNat == 0xFEFF

/-- JS `String.prototype.trim`: strip `\s` from both ends. -/
def jsTrim (s : String) : String :=
  ⟨(((s.data.dropWhile jsWhitespace).reverse.dropWhile jsWhitespace).reverse)⟩

/-- One character of the title allow-list `/^[a-zA-Z0-9\s\-_.,!]+$/`. -/
def titleAllowedChar (c : Char) : Bool :=
  (('a' ≤ c && c ≤ 'z') || ('A' ≤ c && c ≤ 'Z') || ('0' ≤ c && c ≤ '9') ||
    jsWhitespace c || c == '-' || c == '_' || c == '.' || c == ',' || c == '!')

/-- The result shape of `validateTitle` / `validateDescription`. -/
structure ValidationResult where
  isValid : Bool
  error : Option String := none
  deriving DecidableEq, Repr

/-- The `string.min` message of the title schema. -/
def titleTooShortMsg : String := "Title must be at least 10 characters long"

/-- The `string.max` message of the title schema. -/
def titleTooLongMsg : String := "Title must not exceed 100 characters"

/-- The `string.pattern.base` message of the title schema. -/
def titleInvalidCharsMsg : String :=
  "Title can only contain letters, numbers, spaces, and the following characters: - _ . , !"

/-- Joi's default `string.empty` message (the schema does not override it). -/
def titleEmptyMsg : String := "\"value\" is not allowed to be empty"

/-- `validateTitle`: Joi `string().min(10).max(100).pattern(...).required()`
with `abortEarly`, reporting the first failing rule in chain order
(empty, min, max, pattern). -/
def validateTitle (title : String) : ValidationResult :=
  if title.length == 0 then
    { isValid := false, error := some titleEmptyMsg }
  else if title.length < 10 then
    { isValid := false, error := some titleTooShortMsg }
  else if title.length > 100 then
    { isValid := false, error := some titleTooLongMsg }
  else if !(title.data.all titleAllowedChar) then
    { isValid := false, error := some titleInvalidCharsMsg }
  else
    { isValid := true }

/-- The `string.min` message of the description schema. -/
def descriptionTooShortMsg : String :=
  "Description must be at least 10 characters long."

/-- `validateDescription`: Joi `string().min(10).required()`. -/
def validateDescription (description : String) : ValidationResult :=
  if description.length == 0 then
    { isValid := false, error := some titleEmptyMsg }
  else if description.length < 10 then
    { isValid := false, error := some descriptionTooShortMsg }
  else
    { isValid := true }

/-- `sanitizeInput`: remove control characters `[\x00-\x1F\x7F]`, then trim. -/
def sanitizeInput (input : String) : String :=
  jsTrim ⟨input.data.filter (fun c => !(c.toNat ≤ 0x1F || c.toNat == 0x7F))⟩

/-! ## Configuration (src/config.ts)

The `rateLimit` block of `config` is commented out in the source
(`// Rate limiting removed`), so `config.rateLimit` is `undefined` at
runtime even though `CallbackHandler.handleAction` still dereferences
`config.rateLimit.maxTicketsPerDay`. -/

/-- The shape the rate-limit block would have. -/
structure RateLimitConfig where
  maxTicketsPerDay : Nat
  deriving DecidableEq, Repr

/-- `config.rateLimit` as it stands in src/config.ts: absent. -/
def configRateLimit : Option RateLimitConfig := none

/-! ## Bot handlers (src/bot/handlers) -/

/-- The ticket returned by `LinearService.createTicket`. -/
structure LinearTicket where
  id : String
  identifier : String
  url : String
  deriving DecidableEq, Repr

/-- Outcome of the single `linearService.createTicket` call: success or a
thrown tracker error. -/
inductive GatewayResult where
  | ok (t : LinearTicket)
  | fail
  deriving DecidableEq, Repr

/-- The user-visible outcome of handling one event (each constructor stands
for one distinct `sendMessage` / `editMessageText` text of the source). -/
inductive Reply where
  | pleaseStart
  | useMenuButtons
  | useProvidedButtons
  | invalidTitle (error : String)
  | duplicateTitle
  | titleSaved
  | invalidDescription (error : String)
  | descriptionSavedToConfirmation
  | descriptionSavedToLabel
  | commentAdded
  | commentFailed
  | sessionExpiredRetry
  | genericError
  | rateLimited (max : Nat)
  | categoryPrompt
  | ticketCreated (identifier url : String)
  | ticketFailed
  | editPrompt
  | cancelled
  deriving DecidableEq, Repr

/-- `MessageHandler.handleTitleInput`: sanitize, validate, check the
duplicate window, then store the title and advance to
`AWAITING_DESCRIPTION`. A thrown session-manager error is caught by
`handleMessage`'s catch as a generic error. -/
def handleTitleInput (timeout now nowDay : Int) (st : DbState) (uid : String)
    (text : String) : DbState × Option Reply :=
  let sanitizedTitle := sanitizeInput text
  let validation := validateTitle sanitizedTitle
  if !validation.isValid then
    (st, some (Reply.invalidTitle (validation.error.getD "")))
  else if Database.findDuplicateTicket st sanitizedTitle nowDay 30 then
    (st, some Reply.duplicateTitle)
  else
    match SM.updateTicketData timeout now st uid
        [("title", JsVal.str sanitizedTitle)] with
    | (st1, false) => (st1, some Reply.genericError)
    | (st1, true) =>
      match SM.updateSessionState timeout now st1 uid
          SessionState.AWAITING_DESCRIPTION with
      | (st2, false) => (st2, some Reply.genericError)
      | (st2, true) => (st2, some Reply.titleSaved)

/-- The tail of `MessageHandler.handleDescriptionInput` after the
description has been stored: branch on whether a label is already present
in the session fetched at the top of the method. -/
def descriptionNextStep (timeout now : Int) (st : DbState) (uid : String)
    (s : Session) : DbState × Option Reply :=
  if (objGet s.ticketData "label").isSome then
    match SM.updateSessionState timeout now st uid
        SessionState.AWAITING_CONFIRMATION with
    | (st1, false) => (st1, some Reply.genericError)
    | (st1, true) =>
      match SM.updateTicketData timeout now st1 uid
          [("priority", JsVal.str "Medium")] with
      | (st2, false) => (st2, some Reply.genericError)
      | (st2, true) => (st2, some Reply.descriptionSavedToConfirmation)
  else
    match SM.updateSessionState timeout now st uid
        SessionState.AWAITING_LABEL with
    | (st1, false) => (st1, some Reply.genericError)
    | (st1, true) => (st1, some Reply.descriptionSavedToLabel)

/-- `MessageHandler.handleDescriptionInput`: template answers are stored
raw (no sanitization or validation), other input is sanitized and
validated against the minimum length. -/
def handleDescriptionInput (timeout now : Int) (st : DbState) (uid : String)
    (text : String) : DbState × Option Reply :=
  match SM.getSession timeout now st uid with
  | (st0, none) => (st0, none)
  | (st0, some s) =>
    if objTruthy s.ticketData "awaitingTemplate" then
      match SM.updateTicketData timeout now st0 uid
          [("description", JsVal.str text),
           ("awaitingTemplate", JsVal.boolean false)] with
      | (st1, false) => (st1, some Reply.genericError)
      | (st1, true) => descriptionNextStep timeout now st1 uid s
    else
      let sanitizedDescription := sanitizeInput text
      let validation := validateDescription sanitizedDescription
      if !validation.isValid then
        (st0, some (Reply.invalidDescription (validation.error.getD "")))
      else
        match SM.updateTicketData timeout now st0 uid
            [("description", JsVal.str sanitizedDescription)] with
        | (st1, false) => (st1, some Reply.genericError)
        | (st1, true) => descriptionNextStep timeout now st1 uid s

/-- `MessageHandler.handleCommentInput`: requires a session with an
`issueId`, calls the gateway once (`gwAddComment` is its result), reports
the outcome, and clears the session to `IDLE` either way. -/
def handleCommentInput (gwAddComment : Bool) (timeout now : Int)
    (st : DbState) (uid : String) (text : String) : DbState × Option Reply :=
  match SM.getSession timeout now st uid with
  | (st0, none) => (st0, some Reply.sessionExpiredRetry)
  | (st0, some s) =>
    match objGetStr s.ticketData "issueId" with
    | none => (st0, some Reply.sessionExpiredRetry)
    | some _ =>
      let reply := if gwAddComment then Reply.commentAdded else Reply.commentFailed
      match SM.updateSession timeout now st0 uid
          { state := some SessionState.IDLE, ticketData := some [] } with
      | (st1, _) => (st1, some reply)

/-- `MessageHandler.handleMessage`: trim the text, look the session up
(lazy expiry), refresh `lastActivity`, then route on the state captured by
that first lookup; states without a text route answer with the generic
"use the provided buttons" instruction. -/
def handleMessage (gwAddComment : Bool) (timeout now nowDay : Int)
    (st : DbState) (uid : String) (rawText : String) : DbState × Option Reply :=
  let text := jsTrim rawText
  if text == "" then (st, none)
  else
    match SM.getSession timeout now st uid with
    | (st0, none) => (st0, some Reply.pleaseStart)
    | (st0, some s) =>
      match SM.updateSession timeout now st0 uid {} with
      | (st1, false) => (st1, some Reply.genericError)
      | (st1, true) =>
        match s.state with
        | SessionState.AWAITING_TITLE =>
          handleTitleInput timeout now nowDay st1 uid text
        | SessionState.AWAITING_DESCRIPTION =>
          handleDescriptionInput timeout now st1 uid text
        | SessionState.IDLE => (st1, some Reply.useMenuButtons)
        | SessionState.ADDING_COMMENT =>
          handleCommentInput gwAddComment timeout now st1 uid text
        | _ => (st1, some Reply.useProvidedButtons)

/-- `CallbackHandler.handleAction` for a given `config.rateLimit` value.
With `rateLimit` absent (`none`, as in src/config.ts) the dereference
`config.rateLimit.maxTicketsPerDay` throws a `TypeError`, caught by
`handleCallback`'s catch after no state was mutated: the user gets the
generic error message. -/
def handleActionWith (rateLimit : Option RateLimitConfig)
    (timeout now : Int) (st : DbState) (uid : String) (action : String) :
    DbState × Option Reply :=
  if action == "create_ticket" then
    let ticketsToday := Database.getUserTicketsToday st uid
    match rateLimit with
    | none => (st, some Reply.genericError)
    | some rl =>
      if rl.maxTicketsPerDay ≤ ticketsToday then
        (st, some (Reply.rateLimited rl.maxTicketsPerDay))
      else
        match SM.updateSessionState timeout now st uid
            SessionState.AWAITING_CATEGORY with
        | (st1, false) => (st1, some Reply.genericError)
        | (st1, true) => (st1, some Reply.categoryPrompt)
  else
    (st, none)

/-- `CallbackHandler.handleAction` as compiled against the actual
`config` of src/config.ts (whose `rateLimit` block is commented out). -/
def handleAction (timeout now : Int) (st : DbState) (uid : String)
    (action : String) : DbState × Option Reply :=
  handleActionWith configRateLimit timeout now st uid action

/-- The catch block of `CallbackHandler.handleConfirmation`'s `'yes'` arm:
mark the ticket failed — but only when `session.ticketData.id` is set,
which the creation flow never does — then tell the user the request was
saved. The session is not touched here. -/
def confirmationCatch (nowDay : Int) (st : DbState) (s : Session) :
    DbState × Option Reply :=
  match objGetStr s.ticketData "id" with
  | some tid =>
    (Database.updateTicketStatus st tid "failed" none none nowDay,
      some Reply.ticketFailed)
  | none => (st, some Reply.ticketFailed)

/-- `CallbackHandler.handleConfirmation`: on `'yes'`, persist the record as
`submitted`, call the gateway once, and on success flip it to `created`,
bump the user's counters and clear the session to `IDLE`; `gw` is the
gateway outcome, `freshId` the generated record id. A missing draft field
makes the `INSERT` violate `NOT NULL` and throw into the same catch. -/
def handleConfirmation (gw : GatewayResult) (timeout now nowDay : Int)
    (freshId : String) (st : DbState) (uid : String) (action : String)
    (user : UserRow) : DbState × Option Reply :=
  match SM.getSession timeout now st uid with
  | (st0, none) => (st0, none)
  | (st0, some s) =>
    if action == "yes" then
      match objGetStr s.ticketData "title", objGetStr s.ticketData "description",
          objGetStr s.ticketData "label", objGetStr s.ticketData "priority" with
      | some title, some description, some label, some priority =>
        let (st1, rec?) := Database.createTicket st0
          { telegram_user_id := uid
            telegram_username := user.telegram_username
            department := user.department
            title := title
            description := description
            label := label
            priority := priority
            status := "submitted" } freshId nowDay
        match rec? with
        | none => confirmationCatch nowDay st1 s
        | some rec =>
          match gw with
          | GatewayResult.fail => confirmationCatch nowDay st1 s
          | GatewayResult.ok lt =>
            let st2 := Database.updateTicketStatus st1 rec.id "created"
              (some lt.id) (some lt.url) nowDay
            let st3 := Database.incrementUserTicketCount st2 uid
            match SM.updateSession timeout now st3 uid
                { state := some SessionState.IDLE, ticketData := some [] } with
            | (st4, _) =>
              let st5 := Database.addAuditLog st4 uid "TICKET_CREATED"
              (st5, some (Reply.ticketCreated lt.identifier lt.url))
      | _, _, _, _ => confirmationCatch nowDay st0 s
    else if action == "edit" then
      (st0, some Reply.editPrompt)
    else if action == "cancel" then
      match SM.updateSession timeout now st0 uid
          { state := some SessionState.IDLE, ticketData := some [] } with
      | (st1, _) => (st1, some Reply.cancelled)
    else
      (st0, none)

/-! ## Helper lemmas -/

/-- Filtering by a predicate implied by the search predicate does not change
the result of `find?`. -/
lemma find?_filter_of_imp {α : Type} (p q : α → Bool) (l : List α)
    (h : ∀ x, p x = true → q x = true) :
    (l.filter q).find? p = l.find? p := by
  induction l with
  | nil => rfl
  | cons a t ih =>
    by_cases hq : q a = true
    · by_cases hp : p a = true
      · simp [List.filter_cons, hq, List.find?_cons_of_pos, hp]
      · simp only [List.filter_cons, hq, if_true]
        rw [List.find?_cons_of_neg _ (by simp [hp]),
          List.find?_cons_of_neg _ (by simp [hp]), ih]
    · have hqf : q a = false := by simpa using hq
      have hp : p a = false := by
        cases hpa : p a
        · rfl
        · exact absurd (h a hpa) hq
      rw [List.filter_cons]
      simp only [hqf, Bool.false_eq_true, if_false]
      rw [List.find?_cons_of_neg _ (by simp [hp]), ih]

/-- After `saveSession`, looking the same user up returns exactly the saved
session. -/
lemma getSession_saveSession_self (st : DbState) (s : Session) :
    Database.getSession (Database.saveSession st s) s.userId = some s := by
  unfold Database.getSession Database.saveSession
  rw [List.find?_append]
  have h1 : (st.sessions.filter (fun r => !(r.userId == s.userId))).find?
      (fun r => r.userId == s.userId) = none := by
    rw [List.find?_eq_none]
    intro x hx
    rcases List.mem_filter.mp hx with ⟨-, hkeep⟩
    simp at hkeep
    simp [hkeep]
  rw [h1]
  simp [List.find?]

/-- After deleting a user's session row, looking that user up finds
nothing. -/
lemma getSession_deleteSession_self (st : DbState) (uid : String) :
    Database.getSession (Database.deleteSession st uid) uid = none := by
  unfold Database.getSession Database.deleteSession
  rw [List.find?_eq_none]
  intro x hx
  rcases List.mem_filter.mp hx with ⟨-, hkeep⟩
  simp at hkeep
  simp [hkeep]

/-- `addAuditLog` does not touch the sessions table. -/
lemma getSession_addAuditLog (st : DbState) (uid uid' action : String) :
    Database.getSession (Database.addAuditLog st uid' action) uid =
      Database.getSession st uid := rfl

/-- The session found for `uid` carries `uid` as its `userId`. -/
lemma userId_of_getSession {st : DbState} {uid : String} {s : Session}
    (h : Database.getSession st uid = some s) : s.userId = uid := by
  have := List.find?_some h
  simpa using this

/-- A field absent from the patch keeps its value across the shallow
merge. -/
lemma objGet_objMerge_of_not_has (old patch : JsObj) (k : String)
    (h : objHas patch k = false) :
    objGet (objMerge old patch) k = objGet old k := by
  unfold objGet objMerge
  rw [List.find?_append]
  have h2 : patch.find? (fun p => p.1 == k) = none := by
    rw [List.find?_eq_none]
    intro x hx hpx
    unfold objHas at h
    have hAny : patch.any (fun p => p.1 == k) = true :=
      List.any_eq_true.mpr ⟨x, hx, hpx⟩
    rw [h] at hAny
    exact Bool.false_ne_true hAny
  have h1 : (old.filter (fun p => !(objHas patch p.1))).find?
      (fun p => p.1 == k) = old.find? (fun p => p.1 == k) := by
    apply find?_filter_of_imp
    intro x hx
    have hk : x.1 = k := by simpa using hx
    simp [hk, h]
  rw [h1, h2]
  cases old.find? (fun p => p.1 == k) <;> simp

/-- A field present in the patch takes the patch's value across the shallow
merge. -/
lemma objGet_objMerge_of_has (old patch : JsObj) (k : String)
    (h : objHas patch k = true) :
    objGet (objMerge old patch) k = objGet patch k := by
  unfold objGet objMerge
  rw [List.find?_append]
  have h1 : (old.filter (fun p => !(objHas patch p.1))).find?
      (fun p => p.1 == k) = none := by
    rw [List.find?_eq_none]
    intro x hx hpx
    rcases List.mem_filter.mp hx with ⟨-, hkeep⟩
    have hk : x.1 = k := by simpa using hpx
    rw [hk, h] at hkeep
    simp at hkeep
  rw [h1]
  cases patch.find? (fun p => p.1 == k) <;> simp

/-- The invariant "at most one session row per user identity". -/
def atMostOneSessionPerUser (l : List Session) : Prop :=
  ∀ uid : String, (l.filter (fun r => r.userId == uid)).length ≤ 1

/-! ## Theorems -/

/-- C5: For every session whose `lastActivity` is more than
`timeoutMinutes` in the past, `getSession(userId)` returns `none`, and a
second `getSession(userId)` immediately afterwards also returns `none`,
because the expired record was deleted from the store as a side effect of
the first read. -/
theorem C5_lazy_expiry_deletes (timeout now : Int) (st : DbState)
    (uid : String) (s : Session)
    (hfind : Database.getSession st uid = some s)
    (hexp : timeout * 60000 < now - s.lastActivity) :
    (SM.getSession timeout now st uid).2 = none ∧
      (SM.getSession timeout now (SM.getSession timeout now st uid).1 uid).2
        = none := by
  have hdel : Database.getSession (SM.deleteSession st uid) uid = none := by
    unfold SM.deleteSession
    rw [getSession_addAuditLog, getSession_deleteSession_self]
  constructor
  · simp only [SM.getSession, hfind, if_pos hexp]
  · simp only [SM.getSession, hfind, if_pos hexp, hdel]

/-- C5 witness: a concrete store with one session, 31 simulated minutes of
inactivity against a 30-minute timeout. -/
theorem C5_lazy_expiry_deletes_witness :
    (SM.getSession 30 1860000
      { users := [], tickets := [],
        sessions := [{ userId := "u1", state := SessionState.AWAITING_TITLE,
                       ticketData := [], lastActivity := 0, createdAt := 0 }],
        auditLog := [] } "u1").2 = none ∧
    (SM.getSession 30 1860000
      (SM.getSession 30 1860000
        { users := [], tickets := [],
          sessions := [{ userId := "u1", state := SessionState.AWAITING_TITLE,
                         ticketData := [], lastActivity := 0, createdAt := 0 }],
          auditLog := [] } "u1").1 "u1").2 = none :=
  C5_lazy_expiry_deletes 30 1860000 _ "u1"
    { userId := "u1", state := SessionState.AWAITING_TITLE,
      ticketData := [], lastActivity := 0, createdAt := 0 }
    (by decide) (by decide)

/-- C8: For every user identity, at most one session record exists in the
store at any time, and creating a session for a user that already has one
replaces the prior session entirely (fresh `IDLE` state and empty draft, no
merging of old state or draft fields). -/
theorem C8_create_supersedes (st : DbState) (uid : String) (now : Int)
    (hinv : atMostOneSessionPerUser st.sessions) :
    (SM.createSession st uid now).2 =
      { userId := uid, state := SessionState.IDLE, ticketData := [],
        lastActivity := now, createdAt := now } ∧
    ((SM.createSession st uid now).1).sessions.filter
        (fun r => r.userId == uid) = [(SM.createSession st uid now).2] ∧
    atMostOneSessionPerUser ((SM.createSession st uid now).1).sessions := by
  set fresh : Session :=
    { userId := uid, state := SessionState.IDLE, ticketData := [],
      lastActivity := now, createdAt := now } with hfresh
  have hsessions : ((SM.createSession st uid now).1).sessions =
      st.sessions.filter (fun r => !(r.userId == uid)) ++ [fresh] := rfl
  have hnil : ∀ u : String,
      (st.sessions.filter (fun r => !(r.userId == uid))).filter
        (fun r => r.userId == u) =
      (st.sessions.filter (fun r => r.userId == u)).filter
        (fun r => !(r.userId == uid)) := by
    intro u
    rw [List.filter_filter, List.filter_filter]
    congr 1
    funext r
    exact Bool.and_comm _ _
  refine ⟨rfl, ?_, ?_⟩
  · rw [hsessions, List.filter_append]
    have h1 : (st.sessions.filter (fun r => !(r.userId == uid))).filter
        (fun r => r.userId == uid) = [] := by
      rw [List.filter_eq_nil_iff]
      intro a ha
      rcases List.mem_filter.mp ha with ⟨-, hkeep⟩
      simp at hkeep
      simp [hkeep]
    rw [h1]
    have hself : (fresh.userId == uid) = true := by rw [hfresh]; simp
    simp only [List.nil_append, List.filter_cons, hself, if_pos,
      List.filter_nil]
    rfl
  · intro u
    rw [hsessions, List.filter_append]
    by_cases hu : uid = u
    · subst hu
      have h1 : (st.sessions.filter (fun r => !(r.userId == uid))).filter
          (fun r => r.userId == uid) = [] := by
        rw [List.filter_eq_nil_iff]
        intro a ha
        rcases List.mem_filter.mp ha with ⟨-, hkeep⟩
        simp at hkeep
        simp [hkeep]
      rw [h1]
      simp
    · have h2 : ([fresh].filter (fun r => r.userId == u)) = [] := by
        simp [hfresh, hu]
      rw [h2, List.append_nil]
      calc ((st.sessions.filter (fun r => !(r.userId == uid))).filter
              (fun r => r.userId == u)).length
          ≤ (st.sessions.filter (fun r => r.userId == u)).length := by
            rw [hnil u]
            exact ((List.filter_sublist _).length_le)
        _ ≤ 1 := hinv u

/-- C8 witness: creating over an existing non-`IDLE` session with a
non-empty draft leaves exactly the fresh record. -/
theorem C8_create_supersedes_witness :
    (SM.createSession
      { users := [], tickets := [],
        sessions := [{ userId := "u1",
                       state := SessionState.AWAITING_CONFIRMATION,
                       ticketData := [("title", JsVal.str "Old draft title")],
                       lastActivity := 5, createdAt := 1 }],
        auditLog := [] } "u1" 77).2 =
      { userId := "u1", state := SessionState.IDLE, ticketData := [],
        lastActivity := 77, createdAt := 77 } ∧
    ((SM.createSession
      { users := [], tickets := [],
        sessions := [{ userId := "u1",
                       state := SessionState.AWAITING_CONFIRMATION,
                       ticketData := [("title", JsVal.str "Old draft title")],
                       lastActivity := 5, createdAt := 1 }],
        auditLog := [] } "u1" 77).1).sessions.filter
        (fun r => r.userId == "u1") =
      [(SM.createSession
        { users := [], tickets := [],
          sessions := [{ userId := "u1",
                         state := SessionState.AWAITING_CONFIRMATION,
                         ticketData := [("title", JsVal.str "Old draft title")],
                         lastActivity := 5, createdAt := 1 }],
          auditLog := [] } "u1" 77).2] ∧
    atMostOneSessionPerUser ((SM.createSession
      { users := [], tickets := [],
        sessions := [{ userId := "u1",
                       state := SessionState.AWAITING_CONFIRMATION,
                       ticketData := [("title", JsVal.str "Old draft title")],
                       lastActivity := 5, createdAt := 1 }],
        auditLog := [] } "u1" 77).1).sessions :=
  C8_create_supersedes _ "u1" 77 (by
    intro u
    by_cases h : "u1" = u
    · subst h; simp
    · have : ("u1" == u) = false := by simpa using h
      simp [this])

/-- C6: For every live session and every partial draft update, draft
fields that were previously set and are not mentioned in the partial keep
their old values after the update (shallow merge: new keys overwrite,
unspecified keys are preserved). -/
theorem C6_shallow_merge_preserves_unmentioned (timeout now : Int)
    (st : DbState) (uid : String) (patch : JsObj) (k : String) (v : JsVal)
    (s : Session)
    (hfind : Database.getSession st uid = some s)
    (hlive : ¬ timeout * 60000 < now - s.lastActivity)
    (hold : objGet s.ticketData k = some v)
    (hnot : objHas patch k = false) :
    (SM.updateTicketData timeout now st uid patch).2 = true ∧
    ∃ s', Database.getSession
        (SM.updateTicketData timeout now st uid patch).1 uid = some s' ∧
      objGet s'.ticketData k = some v ∧ s'.state = s.state := by
  have huid : s.userId = uid := userId_of_getSession hfind
  set s' : Session :=
    { s with ticketData := objMerge s.ticketData patch,
             lastActivity := now } with hs'
  have hget : SM.getSession timeout now st uid = (st, some s) := by
    simp only [SM.getSession, hfind, if_neg hlive]
  have hupd : SM.updateTicketData timeout now st uid patch =
      (Database.saveSession st s', true) := by
    simp only [SM.updateTicketData, SM.updateSession, hget]
    rfl
  refine ⟨by rw [hupd], s', ?_, ?_, rfl⟩
  · rw [hupd]
    have h := getSession_saveSession_self st s'
    have hs'uid : s'.userId = uid := by rw [hs']; exact huid
    rwa [hs'uid] at h
  · show objGet (objMerge s.ticketData patch) k = some v
    rw [objGet_objMerge_of_not_has s.ticketData patch k hnot]
    exact hold

/-- C6 witness: a live session holding a title, updated with a
description-only patch, keeps the title. -/
theorem C6_shallow_merge_preserves_unmentioned_witness :
    (SM.updateTicketData 30 1000
      { users := [], tickets := [],
        sessions := [{ userId := "u1",
                       state := SessionState.AWAITING_DESCRIPTION,
                       ticketData := [("title", JsVal.str "A valid title"),
                                      ("label", JsVal.str "Bug")],
                       lastActivity := 0, createdAt := 0 }],
        auditLog := [] } "u1"
      [("description", JsVal.str "A long enough description")]).2 = true ∧
    ∃ s', Database.getSession
        (SM.updateTicketData 30 1000
          { users := [], tickets := [],
            sessions := [{ userId := "u1",
                           state := SessionState.AWAITING_DESCRIPTION,
                           ticketData := [("title", JsVal.str "A valid title"),
                                          ("label", JsVal.str "Bug")],
                           lastActivity := 0, createdAt := 0 }],
            auditLog := [] } "u1"
          [("description", JsVal.str "A long enough description")]).1 "u1"
        = some s' ∧
      objGet s'.ticketData "title" = some (JsVal.str "A valid title") ∧
      s'.state = SessionState.AWAITING_DESCRIPTION :=
  C6_shallow_merge_preserves_unmentioned 30 1000 _ "u1"
    [("description", JsVal.str "A long enough description")]
    "title" (JsVal.str "A valid title")
    { userId := "u1", state := SessionState.AWAITING_DESCRIPTION,
      ticketData := [("title", JsVal.str "A valid title"),
                     ("label", JsVal.str "Bug")],
      lastActivity := 0, createdAt := 0 }
    (by decide) (by decide) (by decide) (by decide)

/-- Whether `MessageHandler.handleMessage` has a text route for this state
(the `switch` cases that do more than send an instruction message). -/
def hasTextRoute : SessionState → Bool
  | SessionState.AWAITING_TITLE => true
  | SessionState.AWAITING_DESCRIPTION => true
  | SessionState.ADDING_COMMENT => true
  | _ => false

/-- C3 counterexample: a text message to a live session in
`AWAITING_PRIORITY` is rejected with the generic instruction, yet the
stored session record is NOT left completely unchanged — its
`lastActivity` timestamp is refreshed before the state switch. -/
theorem C3_counterexample :
    (handleMessage false 30 60000 0
      { users := [], tickets := [],
        sessions := [{ userId := "u1", state := SessionState.AWAITING_PRIORITY,
                       ticketData := [("title", JsVal.str "Some prior title")],
                       lastActivity := 0, createdAt := 0 }],
        auditLog := [] } "u1" "hello").2 = some Reply.useProvidedButtons ∧
    Database.getSession
      (handleMessage false 30 60000 0
        { users := [], tickets := [],
          sessions := [{ userId := "u1",
                         state := SessionState.AWAITING_PRIORITY,
                         ticketData := [("title", JsVal.str "Some prior title")],
                         lastActivity := 0, createdAt := 0 }],
          auditLog := [] } "u1" "hello").1 "u1" ≠
      some { userId := "u1", state := SessionState.AWAITING_PRIORITY,
             ticketData := [("title", JsVal.str "Some prior title")],
             lastActivity := 0, createdAt := 0 } := by
  constructor
  · rfl
  · decide

/-- C3 (amended): for every live session and every incoming text event that
is not valid for the session's current state, the event is rejected with a
generic instruction message and the session's state tag, draft fields and
`createdAt` are unchanged — but `lastActivityAt` IS refreshed to the time
of the event (the handler updates it before routing). -/
theorem C3_invalid_event_rejected_refreshes_activity (gw : Bool)
    (timeout now nowDay : Int) (st : DbState) (uid rawText : String)
    (s : Session)
    (htext : (jsTrim rawText == "") = false)
    (hfind : Database.getSession st uid = some s)
    (hlive : ¬ timeout * 60000 < now - s.lastActivity)
    (hroute : hasTextRoute s.state = false) :
    (handleMessage gw timeout now nowDay st uid rawText).2 =
      some (if s.state = SessionState.IDLE then Reply.useMenuButtons
            else Reply.useProvidedButtons) ∧
    Database.getSession
        (handleMessage gw timeout now nowDay st uid rawText).1 uid =
      some { s with lastActivity := now } := by
  have huid : s.userId = uid := userId_of_getSession hfind
  subst huid
  have hget : SM.getSession timeout now st s.userId = (st, some s) := by
    simp only [SM.getSession, hfind, if_neg hlive]
  have hupd : SM.updateSession timeout now st s.userId {} =
      (Database.saveSession st { s with lastActivity := now }, true) := by
    simp only [SM.updateSession, hget, Option.getD_none]
  have hlook : Database.getSession
      (Database.saveSession st { s with lastActivity := now }) s.userId =
      some { s with lastActivity := now } :=
    getSession_saveSession_self st { s with lastActivity := now }
  constructor <;>
  · simp only [handleMessage, htext, Bool.false_eq_true, if_false, hget, hupd]
    cases hs : s.state <;> simp_all [hasTextRoute]

/-- C3 amended witness: a text event against a live `AWAITING_CONFIRMATION`
session. -/
theorem C3_invalid_event_rejected_refreshes_activity_witness :
    (handleMessage false 30 1000 0
      { users := [], tickets := [],
        sessions := [{ userId := "u1",
                       state := SessionState.AWAITING_CONFIRMATION,
                       ticketData := [("label", JsVal.str "Bug")],
                       lastActivity := 0, createdAt := 0 }],
        auditLog := [] } "u1" "hello").2 =
      some (if SessionState.AWAITING_CONFIRMATION = SessionState.IDLE
            then Reply.useMenuButtons else Reply.useProvidedButtons) ∧
    Database.getSession
        (handleMessage false 30 1000 0
          { users := [], tickets := [],
            sessions := [{ userId := "u1",
                           state := SessionState.AWAITING_CONFIRMATION,
                           ticketData := [("label", JsVal.str "Bug")],
                           lastActivity := 0, createdAt := 0 }],
            auditLog := [] } "u1" "hello").1 "u1" =
      some { userId := "u1", state := SessionState.AWAITING_CONFIRMATION,
             ticketData := [("label", JsVal.str "Bug")],
             lastActivity := 1000, createdAt := 0 } :=
  C3_invalid_event_rejected_refreshes_activity false 30 1000 0 _ "u1" "hello"
    { userId := "u1", state := SessionState.AWAITING_CONFIRMATION,
      ticketData := [("label", JsVal.str "Bug")],
      lastActivity := 0, createdAt := 0 }
    (by decide) (by decide) (by decide) (by decide)

/-- C7: title validation accepts a sanitized title iff its length is
between 10 and 100 characters and every character is in the allow-list
class, with a distinct specific reason per failing rule (too short / too
long / invalid characters); in particular a 5-character input at the
`AWAITING_TITLE` step is rejected with the "too short" reason and the
handler leaves the store — session state and draft included — untouched. -/
theorem C7_title_validation (t : String) (timeout now nowDay : Int)
    (st : DbState) (uid : String) :
    ((validateTitle t).isValid = true ↔
      (10 ≤ t.length ∧ t.length ≤ 100 ∧ t.data.all titleAllowedChar = true)) ∧
    (0 < t.length → t.length < 10 →
      (validateTitle t).error = some titleTooShortMsg) ∧
    (100 < t.length → (validateTitle t).error = some titleTooLongMsg) ∧
    (10 ≤ t.length → t.length ≤ 100 → t.data.all titleAllowedChar = false →
      (validateTitle t).error = some titleInvalidCharsMsg) ∧
    (titleTooShortMsg ≠ titleTooLongMsg ∧
      titleTooShortMsg ≠ titleInvalidCharsMsg ∧
      titleTooLongMsg ≠ titleInvalidCharsMsg) ∧
    handleTitleInput timeout now nowDay st uid "short" =
      (st, some (Reply.invalidTitle titleTooShortMsg)) := by
  refine ⟨?_, ?_, ?_, ?_, ⟨by decide, by decide, by decide⟩, ?_⟩
  · unfold validateTitle
    split_ifs with h0 h1 h2 <;> simp_all
  · intro hpos hshort
    unfold validateTitle
    have h0 : (t.length == 0) = false := by simp; omega
    simp only [h0, Bool.false_eq_true, if_false, if_pos hshort]
  · intro hlong
    unfold validateTitle
    have h0 : (t.length == 0) = false := by simp; omega
    have h1 : ¬ t.length < 10 := by omega
    simp only [h0, Bool.false_eq_true, if_false, if_neg h1, if_pos hlong]
  · intro hge hle hbad
    unfold validateTitle
    have h0 : (t.length == 0) = false := by simp; omega
    have h1 : ¬ t.length < 10 := by omega
    have h2 : ¬ t.length > 100 := by omega
    simp only [h0, Bool.false_eq_true, if_false, if_neg h1, if_neg h2, hbad,
      Bool.not_false, if_pos]
  · rfl

/-- C7 witness: the "too short" rejection for the concrete 5-character
input and acceptance of a concrete valid title. -/
theorem C7_title_validation_witness :
    (validateTitle "short").error = some titleTooShortMsg ∧
    (validateTitle "A valid title!").isValid = true ∧
    handleTitleInput 30 1000 0
        { users := [], tickets := [], sessions := [], auditLog := [] }
        "u1" "short" =
      ({ users := [], tickets := [], sessions := [], auditLog := [] },
        some (Reply.invalidTitle titleTooShortMsg)) :=
  ⟨(C7_title_validation "short" 30 1000 0
      { users := [], tickets := [], sessions := [], auditLog := [] }
      "u1").2.1 (by decide) (by decide),
   (C7_title_validation "A valid title!" 30 1000 0
      { users := [], tickets := [], sessions := [], auditLog := [] }
      "u1").1.mpr (by decide),
   (C7_title_validation "short" 30 1000 0
      { users := [], tickets := [], sessions := [], auditLog := [] }
      "u1").2.2.2.2.2⟩

/-- C4: at the title step, a sanitized title exactly equal to the title of
a ticket record created 10 days ago is rejected as a duplicate (same state
re-prompts, store untouched), while the same title is accepted — stored in
the draft, state advanced to `AWAITING_DESCRIPTION` — when every matching
record is 31 or more days old. -/
theorem C4_duplicate_window (timeout now nowDay : Int) (st : DbState)
    (uid text : String) :
    ((validateTitle (sanitizeInput text)).isValid = true →
      (∃ r ∈ st.tickets, r.title = sanitizeInput text ∧
        r.created_at = nowDay - 10) →
      handleTitleInput timeout now nowDay st uid text =
        (st, some Reply.duplicateTitle)) ∧
    ((validateTitle (sanitizeInput text)).isValid = true →
      (∀ r ∈ st.tickets, r.title = sanitizeInput text →
        r.created_at ≤ nowDay - 31) →
      ∀ s : Session, Database.getSession st uid = some s →
        ¬ timeout * 60000 < now - s.lastActivity → 0 ≤ timeout →
        (handleTitleInput timeout now nowDay st uid text).2 =
          some Reply.titleSaved ∧
        ∃ s', Database.getSession
            (handleTitleInput timeout now nowDay st uid text).1 uid =
            some s' ∧
          s'.state = SessionState.AWAITING_DESCRIPTION ∧
          objGet s'.ticketData "title" =
            some (JsVal.str (sanitizeInput text))) := by
  constructor
  · intro hvalid hdup
    rcases hdup with ⟨r, hr, hrt, hrc⟩
    have hdupT : Database.findDuplicateTicket st (sanitizeInput text)
        nowDay 30 = true := by
      unfold Database.findDuplicateTicket
      rw [List.any_eq_true]
      refine ⟨r, hr, ?_⟩
      have h1 : (r.title == sanitizeInput text) = true := by simp [hrt]
      have h2 : nowDay - 30 ≤ r.created_at := by omega
      simp [h1, h2]
    unfold handleTitleInput
    simp [hvalid, hdupT]
  · intro hvalid hold s hfind hlive htimeout
    have huid : s.userId = uid := userId_of_getSession hfind
    subst huid
    have hdupF : Database.findDuplicateTicket st (sanitizeInput text)
        nowDay 30 = false := by
      unfold Database.findDuplicateTicket
      rw [List.any_eq_false]
      intro r hr
      by_cases ht : r.title = sanitizeInput text
      · have := hold r hr ht
        have h2 : ¬ nowDay - 30 ≤ r.created_at := by omega
        simp [h2]
      · have h1 : (r.title == sanitizeInput text) = false := by
          simpa using ht
        simp [h1]
    have hget : SM.getSession timeout now st s.userId = (st, some s) := by
      simp only [SM.getSession, hfind, if_neg hlive]
    set s1 : Session :=
      { s with
          ticketData :=
            objMerge s.ticketData [("title", JsVal.str (sanitizeInput text))],
          lastActivity := now } with hs1
    have hupd1 : SM.updateTicketData timeout now st s.userId
        [("title", JsVal.str (sanitizeInput text))] =
        (Database.saveSession st s1, true) := by
      simp only [SM.updateTicketData, SM.updateSession, hget]
      rfl
    have hfind1 : Database.getSession (Database.saveSession st s1) s.userId =
        some s1 :=
      getSession_saveSession_self st s1
    have hlive1 : ¬ timeout * 60000 < now - s1.lastActivity := by
      have h60 : (0 : Int) ≤ timeout * 60000 :=
        mul_nonneg htimeout (by norm_num)
      simp only [hs1]
      omega
    have hget1 : SM.getSession timeout now (Database.saveSession st s1)
        s.userId = (Database.saveSession st s1, some s1) := by
      simp only [SM.getSession, hfind1, if_neg hlive1]
    set s2 : Session :=
      { s1 with
          state := SessionState.AWAITING_DESCRIPTION,
          lastActivity := now } with hs2
    have hupd2 : SM.updateSessionState timeout now
        (Database.saveSession st s1) s.userId
        SessionState.AWAITING_DESCRIPTION =
        (Database.saveSession (Database.saveSession st s1) s2, true) := by
      simp only [SM.updateSessionState, SM.updateSession, hget1]
      rfl
    have hrun : handleTitleInput timeout now nowDay st s.userId text =
        (Database.saveSession (Database.saveSession st s1) s2,
          some Reply.titleSaved) := by
      unfold handleTitleInput
      simp only [hvalid, Bool.not_true, Bool.false_eq_true, if_false, hdupF,
        hupd1, hupd2]
    refine ⟨by rw [hrun], s2, ?_, rfl, ?_⟩
    · rw [hrun]
      have h := getSession_saveSession_self (Database.saveSession st s1) s2
      have h2 : s2.userId = s.userId := rfl
      rwa [h2] at h
    · show objGet (objMerge s.ticketData
        [("title", JsVal.str (sanitizeInput text))]) "title" =
        some (JsVal.str (sanitizeInput text))
      rw [objGet_objMerge_of_has _ _ _ (by rfl)]
      rfl

/-- A concrete ticket row fixture with a given status and creation day. -/
def dupRow (status : String) (createdAt : Int) : TicketRow :=
  { id := "t0", telegram_user_id := "u9", telegram_username := none,
    department := "Engineering", title := "Fix login crash now",
    description := "The login screen crashes", label := "Bug",
    priority := "High", status := status,
    linear_ticket_id := none, linear_ticket_url := none,
    created_at := createdAt, submitted_at := none }

/-- A concrete store fixture: one ticket row with the given status and age,
and one live `AWAITING_TITLE` session for user `u1`. -/
def stWithTicket (status : String) (createdAt : Int) : DbState :=
  { users := [], tickets := [dupRow status createdAt],
    sessions := [{ userId := "u1", state := SessionState.AWAITING_TITLE,
                   ticketData := [("label", JsVal.str "Bug")],
                   lastActivity := 1000, createdAt := 0 }],
    auditLog := [] }

/-- C4 witness: with `nowDay = 1000`, a matching record of day 990
(10 days old) is rejected as a duplicate; of day 969 (31 days old) the
title is accepted, stored, and the state advanced. -/
theorem C4_duplicate_window_witness :
    handleTitleInput 30 1000 1000 (stWithTicket "created" 990) "u1"
        "Fix login crash now" =
      (stWithTicket "created" 990, some Reply.duplicateTitle) ∧
    ((handleTitleInput 30 1000 1000 (stWithTicket "created" 969) "u1"
        "Fix login crash now").2 = some Reply.titleSaved ∧
      ∃ s', Database.getSession
          (handleTitleInput 30 1000 1000 (stWithTicket "created" 969) "u1"
            "Fix login crash now").1 "u1" = some s' ∧
        s'.state = SessionState.AWAITING_DESCRIPTION ∧
        objGet s'.ticketData "title" =
          some (JsVal.str (sanitizeInput "Fix login crash now"))) :=
  ⟨(C4_duplicate_window 30 1000 1000 (stWithTicket "created" 990) "u1"
      "Fix login crash now").1 (by decide) (by decide),
   (C4_duplicate_window 30 1000 1000 (stWithTicket "created" 969) "u1"
      "Fix login crash now").2 (by decide) (by decide)
     { userId := "u1", state := SessionState.AWAITING_TITLE,
       ticketData := [("label", JsVal.str "Bug")],
       lastActivity := 1000, createdAt := 0 }
     (by decide) (by decide) (by decide)⟩

/-- C9: the duplicate check ignores the ticket record's status —
`findDuplicateTicket` returns true whenever any record with an exactly
matching title exists within the trailing 30 days, whatever its `status`
(no hypothesis on it below), so a retry with the identical title after a
failed gateway call is rejected as a duplicate at the title step. -/
theorem C9_duplicate_ignores_status (timeout now nowDay : Int)
    (st : DbState) (uid text : String) (r : TicketRow)
    (hr : r ∈ st.tickets)
    (hrt : r.title = sanitizeInput text)
    (hrw : nowDay - 30 ≤ r.created_at)
    (hvalid : (validateTitle (sanitizeInput text)).isValid = true) :
    Database.findDuplicateTicket st (sanitizeInput text) nowDay 30 = true ∧
    handleTitleInput timeout now nowDay st uid text =
      (st, some Reply.duplicateTitle) := by
  have hdupT : Database.findDuplicateTicket st (sanitizeInput text)
      nowDay 30 = true := by
    unfold Database.findDuplicateTicket
    rw [List.any_eq_true]
    refine ⟨r, hr, ?_⟩
    have h1 : (r.title == sanitizeInput text) = true := by simp [hrt]
    simp [h1, hrw]
  refine ⟨hdupT, ?_⟩
  unfold handleTitleInput
  simp [hvalid, hdupT]

/-- C9 witness: the matching record has `status = "failed"` and is still
counted as a duplicate. -/
theorem C9_duplicate_ignores_status_witness :
    Database.findDuplicateTicket (stWithTicket "failed" 995)
      (sanitizeInput "Fix login crash now") 1000 30 = true ∧
    handleTitleInput 30 1000 1000 (stWithTicket "failed" 995) "u1"
        "Fix login crash now" =
      (stWithTicket "failed" 995, some Reply.duplicateTitle) :=
  C9_duplicate_ignores_status 30 1000 1000 (stWithTicket "failed" 995) "u1"
    "Fix login crash now" (dupRow "failed" 995)
    (by decide) (by decide) (by decide) (by decide)

/-- C10: storing then reading back a ticket record is label-preserving for
every application-level label: `createTicket` maps `'Request'` to
`'Other'` before insertion (so the stored label satisfies the schema CHECK,
which does not list `'Request'`), and `mapRowToTicket` maps `'Other'` back
to `'Request'` on read, so the round trip returns the original label. -/
theorem C10_label_roundtrip (st : DbState) (t : TicketInput)
    (freshId : String) (nowDay : Int)
    (hfresh : ∀ r ∈ st.tickets, r.id ≠ freshId)
    (happ : t.label ∈ Database.appLabels) :
    Database.toDbLabel "Request" = "Other" ∧
    Database.toAppLabel "Other" = "Request" ∧
    Database.labelCheckOk "Request" = false ∧
    (∃ row ∈ ((Database.createTicket st t freshId nowDay).1).tickets,
      row.id = freshId ∧ row.label = Database.toDbLabel t.label ∧
      Database.labelCheckOk row.label = true) ∧
    (∃ rec, (Database.createTicket st t freshId nowDay).2 = some rec ∧
      rec.label = t.label) := by
  have hlab : t.label = "Bug" ∨ t.label = "Improvement" ∨
      t.label = "Request" := by
    simpa [Database.appLabels] using happ
  have hcheck : Database.labelCheckOk (Database.toDbLabel t.label) = true := by
    rcases hlab with h | h | h <;> rw [h] <;> decide
  have hround : Database.toAppLabel (Database.toDbLabel t.label) = t.label := by
    rcases hlab with h | h | h <;> rw [h] <;> decide
  have hnone : st.tickets.find? (fun r => r.id == freshId) = none := by
    rw [List.find?_eq_none]
    intro r hr h
    exact hfresh r hr (by simpa using h)
  refine ⟨by decide, by decide, by decide, ?_, ?_⟩
  · refine ⟨_, List.mem_append_right _ (List.mem_singleton.mpr rfl), rfl,
      rfl, hcheck⟩
  · have hfind2 : (Database.createTicket st t freshId nowDay).1.tickets.find?
        (fun r => r.id == freshId) = some
        { id := freshId, telegram_user_id := t.telegram_user_id,
          telegram_username := t.telegram_username,
          department := t.department, title := t.title,
          description := t.description,
          label := Database.toDbLabel t.label, priority := t.priority,
          status := t.status, linear_ticket_id := t.linear_ticket_id,
          linear_ticket_url := t.linear_ticket_url, created_at := nowDay,
          submitted_at := t.submitted_at } := by
      rw [show (Database.createTicket st t freshId nowDay).1.tickets =
        st.tickets ++ [_] from rfl, List.find?_append, hnone]
      simp only [Option.none_or]
      rw [List.find?_cons_of_pos _ (by simp)]
    refine ⟨Database.mapRowToTicket
      { id := freshId, telegram_user_id := t.telegram_user_id,
        telegram_username := t.telegram_username,
        department := t.department, title := t.title,
        description := t.description,
        label := Database.toDbLabel t.label, priority := t.priority,
        status := t.status, linear_ticket_id := t.linear_ticket_id,
        linear_ticket_url := t.linear_ticket_url, created_at := nowDay,
        submitted_at := t.submitted_at }, ?_, hround⟩
    show ((Database.createTicket st t freshId nowDay).1.tickets.find?
      (fun r => r.id == freshId)).map Database.mapRowToTicket = _
    rw [hfind2]
    rfl

/-- C10 witness: the `'Request'` label round-trips through the store via
`'Other'`. -/
theorem C10_label_roundtrip_witness :
    Database.toDbLabel "Request" = "Other" ∧
    Database.toAppLabel "Other" = "Request" ∧
    Database.labelCheckOk "Request" = false ∧
    (∃ row ∈ ((Database.createTicket
        { users := [], tickets := [], sessions := [], auditLog := [] }
        { telegram_user_id := "u1", telegram_username := none,
          department := "Engineering", title := "Add an export button",
          description := "Please add an export button",
          label := "Request", priority := "Low",
          status := "submitted" } "t1" 500).1).tickets,
      row.id = "t1" ∧ row.label = Database.toDbLabel "Request" ∧
      Database.labelCheckOk row.label = true) ∧
    (∃ rec, (Database.createTicket
        { users := [], tickets := [], sessions := [], auditLog := [] }
        { telegram_user_id := "u1", telegram_username := none,
          department := "Engineering", title := "Add an export button",
          description := "Please add an export button",
          label := "Request", priority := "Low",
          status := "submitted" } "t1" 500).2 = some rec ∧
      rec.label = "Request") :=
  C10_label_roundtrip
    { users := [], tickets := [], sessions := [], auditLog := [] }
    { telegram_user_id := "u1", telegram_username := none,
      department := "Engineering", title := "Add an export button",
      description := "Please add an export button",
      label := "Request", priority := "Low", status := "submitted" }
    "t1" 500 (by decide) (by decide)

/-- The confirming user of the C1 scenario. -/
def confUser : UserRow :=
  { telegram_user_id := "u1", telegram_username := some "alice",
    full_name := "Alice A", department := "Engineering",
    is_authenticated := true, tickets_created_today := 0,
    total_tickets_created := 0 }

/-- The complete draft session of the C1 scenario, at the confirmation
step; as everywhere in the creation flow, `ticketData` has no `id` field. -/
def confSession : Session :=
  { userId := "u1", state := SessionState.AWAITING_CONFIRMATION,
    ticketData := [("label", JsVal.str "Bug"),
                   ("title", JsVal.str "Fix login crash now"),
                   ("description", JsVal.str "The login screen crashes"),
                   ("priority", JsVal.str "High")],
    lastActivity := 0, createdAt := 0 }

/-- The store of the C1 scenario before the confirmation event. -/
def confSt : DbState :=
  { users := [confUser], tickets := [], sessions := [confSession],
    auditLog := [] }

/-- C1: evaluation of the confirm step when the gateway call fails. The
claim says the ticket record ends `status = "failed"` and the session is
cleared to `IDLE`; the code instead leaves the record at `"submitted"`
(the catch block guards the failed-status update on
`session.ticketData.id`, which the creation flow never sets, so the update
is dead code) and leaves the session untouched at `AWAITING_CONFIRMATION`.
Only the third conjunct of the claim holds: the rate counter is not
incremented. -/
theorem C1_gateway_failure_eval :
    (handleConfirmation GatewayResult.fail 30 0 500 "t1" confSt "u1" "yes"
      confUser).2 = some Reply.ticketFailed ∧
    ((handleConfirmation GatewayResult.fail 30 0 500 "t1" confSt "u1" "yes"
      confUser).1).tickets.map (fun r => (r.id, r.status)) =
      [("t1", "submitted")] ∧
    Database.getSession
      (handleConfirmation GatewayResult.fail 30 0 500 "t1" confSt "u1" "yes"
        confUser).1 "u1" = some confSession ∧
    Database.getUserTicketsToday
      (handleConfirmation GatewayResult.fail 30 0 500 "t1" confSt "u1" "yes"
        confUser).1 "u1" = 0 := by
  refine ⟨rfl, rfl, ?_, rfl⟩
  decide

/-- The user of the C2 scenario, already at 5 tickets today. -/
def rlUser : UserRow :=
  { telegram_user_id := "u2", telegram_username := none,
    full_name := "Bob B", department := "Operations",
    is_authenticated := true, tickets_created_today := 5,
    total_tickets_created := 12 }

/-- The store of the C2 scenario. -/
def rlSt : DbState :=
  { users := [rlUser], tickets := [], sessions := [], auditLog := [] }

/-- C2: with `config.rateLimit` absent (the block is commented out in
src/config.ts), the `create_ticket` action never produces a rate-limit
rejection: dereferencing `maxTicketsPerDay` throws, the callback handler's
catch reports the generic error, and no state is mutated — for every user
and every counter value, not just at the configured maximum. The third
conjunct shows the handler's own rate-limit branch would reject with no
state change if the config were present, which is the intended behavior
the claim describes. -/
theorem C2_rate_limit_config_missing (timeout now : Int) (st : DbState)
    (uid : String) :
    configRateLimit = none ∧
    handleAction timeout now st uid "create_ticket" =
      (st, some Reply.genericError) ∧
    (∀ rl : RateLimitConfig,
      rl.maxTicketsPerDay ≤ Database.getUserTicketsToday st uid →
      handleActionWith (some rl) timeout now st uid "create_ticket" =
        (st, some (Reply.rateLimited rl.maxTicketsPerDay))) := by
  refine ⟨rfl, rfl, ?_⟩
  intro rl h
  simp [handleActionWith, h]

/-- C2 witness: a user with 5 tickets created today against the intended
maximum of 5: the shipped handler yields the generic error, while the
rate-limit branch (were the config present) would yield the rate-limit
rejection with the store unchanged. -/
theorem C2_rate_limit_config_missing_witness :
    handleAction 30 0 rlSt "u2" "create_ticket" =
      (rlSt, some Reply.genericError) ∧
    handleActionWith (some { maxTicketsPerDay := 5 }) 30 0 rlSt "u2"
        "create_ticket" = (rlSt, some (Reply.rateLimited 5)) :=
  ⟨(C2_rate_limit_config_missing 30 0 rlSt "u2").2.1,
   (C2_rate_limit_config_missing 30 0 rlSt "u2").2.2
     { maxTicketsPerDay := 5 } (by decide)⟩

end LinearBot
